import Mathlib

/-!
Shallow embedding of the data-plane upgrade orchestrator of the
mayastor-extensions `upgrade-job` crate (`src/upgrade/data_plane.rs` and
`src/upgrade/utils.rs`).  External calls (Kubernetes API, storage REST
client, sleeps) are modelled by explicit scripted responses; every
embedded function keeps the source function's name and control flow.
-/

/-- A pod `status.conditions` entry: `type_` and `status` strings
(`k8s_openapi::api::core::v1::PodCondition`). -/
structure PodCondition where
  type_ : String
  status : String
deriving DecidableEq, Repr

/-- Pod status: the optional list of conditions (the only field read). -/
structure PodStatus where
  conditions : Option (List PodCondition)
deriving DecidableEq, Repr

/-- Pod spec: the optional `nodeName` (the only field read). -/
structure PodSpec where
  node_name : Option String
deriving DecidableEq, Repr

/-- A Kubernetes pod as read by the upgrade job: name, namespace
(`nspace`), optional spec and status. -/
structure Pod where
  name : String
  nspace : String
  spec : Option PodSpec
  status : Option PodStatus
deriving DecidableEq, Repr

/-- `openapi::models::CordonDrainState`: the three reported variants
(their payloads are never inspected by the upgrade job). -/
inductive CordonDrainState where
  | cordonedstate
  | drainingstate
  | drainedstate
deriving DecidableEq, Repr

/-- Storage node spec: the optional cordon/drain state. -/
structure NodeSpec where
  cordondrainstate : Option CordonDrainState
deriving DecidableEq, Repr

/-- A storage control-plane node: id and optional spec. -/
structure StorageNode where
  id : String
  spec : Option NodeSpec
deriving DecidableEq, Repr

/-- Child of a volume's replication target: carries an optional
rebuild-progress marker (modelled as a bare `Option Nat`). -/
structure ChildState where
  rebuild_progress : Option Nat
deriving DecidableEq, Repr

/-- A volume's replication target: its children. -/
structure VolumeTarget where
  children : List ChildState
deriving DecidableEq, Repr

/-- Volume state: the optional replication target. -/
structure VolumeState where
  target : Option VolumeTarget
deriving DecidableEq, Repr

/-- A volume as read by `is_rebuilding`. -/
structure Volume where
  state : VolumeState
deriving DecidableEq, Repr

/-- One page of the paginated `get_volumes` response: entries plus the
continuation token (`next_token`). -/
structure VolumePage where
  entries : List Volume
  next_token : Option Int
deriving DecidableEq, Repr

/-- The error taxonomy of `src/common/error.rs` restricted to the
variants reachable from the data-plane upgrade path; opaque transport
errors (`source` fields) are dropped. -/
inductive Error where
  | ListPodsWithLabel (label : String) (nspace : String)
  | EmptyPodSpec (name : String) (nspace : String)
  | EmptyPodNodeName (name : String) (nspace : String)
  | StorageNodeUncordon (node_name : String)
  | PodDeleteError (name : String) (node : String)
  | ListStorageNodes
  | GetStorageNode (node_name : String)
  | EmptyStorageNodeSpec (node_id : String)
  | ListStorageVolumes
  | DrainStorageNode (node_name : String)
  | ValidatingPodRunningStatus (name : String) (nspace : String)
deriving DecidableEq, Repr

/-- Label selecting data-plane (io-engine) pods; the literal value lives
in a constants module outside the analysed sources and is never
inspected, only compared for identity. -/
def IO_ENGINE_LABEL : String := "openebs.io/engine=mayastor"

/-- Label selecting the control-plane core agent pods. -/
def AGENT_CORE_LABEL : String := "app=agent-core"

/-- Label selecting the API gateway (REST) pods. -/
def API_REST_LABEL : String := "app=api-rest"

/-- Label selecting the coordination store (etcd) pods. -/
def ETCD_LABEL : String := "app=etcd"

/-- Loop body of `is_draining` (utils.rs lines 27-41): walks the node
list, errors on a node without a spec, sets the flag from the
cordon/drain state and breaks once it is true.  The accumulator mirrors
the mutable `is_draining` local, which is `false` whenever the loop ends
without a break. -/
def is_draining_loop : List StorageNode → Except Error Bool
  | [] => Except.ok false
  | node :: rest =>
    match node.spec with
    | none => Except.error (Error.EmptyStorageNodeSpec node.id)
    | some node_spec =>
      let d : Bool :=
        match node_spec.cordondrainstate with
        | some CordonDrainState.cordonedstate => false
        | some CordonDrainState.drainingstate => true
        | some CordonDrainState.drainedstate => false
        | none => false
      if d then Except.ok true else is_draining_loop rest

/-- `is_draining` (utils.rs lines 18-43): true iff any node reports the
`Draining` state.  The `get_nodes` REST call is scripted as an `Except`
response; note the source wraps a failure in `ListStorageVolumes`. -/
def is_draining (nodes : Except Unit (List StorageNode)) : Except Error Bool :=
  match nodes with
  | Except.error _ => Except.error Error.ListStorageVolumes
  | Except.ok nodelist => is_draining_loop nodelist

/-- `is_node_cordoned` (utils.rs lines 45-65): fetches one node and
reports whether its cordon/drain state is exactly `Cordoned`. -/
def is_node_cordoned (node_name : String) (resp : Except Unit StorageNode) :
    Except Error Bool :=
  match resp with
  | Except.error _ => Except.error (Error.GetStorageNode node_name)
  | Except.ok node_body =>
    match node_body.spec with
    | none => Except.error (Error.EmptyStorageNodeSpec node_body.id)
    | some node_spec =>
      Except.ok
        (match node_spec.cordondrainstate with
         | some CordonDrainState.cordonedstate => true
         | some CordonDrainState.drainingstate => false
         | some CordonDrainState.drainedstate => false
         | none => false)

/-- Whether a volume has an active rebuild marker: its replication
target has a child whose `rebuild_progress` is set (utils.rs 84-92). -/
def volume_has_rebuild (v : Volume) : Bool :=
  match v.state.target with
  | some target => target.children.any (fun child => child.rebuild_progress.isSome)
  | none => false

/-- `is_rebuilding` (utils.rs lines 68-96), instrumented with the number
of pages fetched.  The pagination is scripted: each `get_volumes` call
consumes the next response.  `none` models a script too short for the
tokens returned (the loop would keep fetching). -/
def is_rebuilding_aux : List (Except Unit VolumePage) → Nat →
    Option (Except Error Bool × Nat)
  | [], _ => none
  | resp :: rest, n =>
    match resp with
    | Except.error _ => some (Except.error Error.ListStorageVolumes, n + 1)
    | Except.ok page =>
      if page.entries.any volume_has_rebuild then some (Except.ok true, n + 1)
      else
        match page.next_token with
        | none => some (Except.ok false, n + 1)
        | some _ => is_rebuilding_aux rest (n + 1)

/-- `is_rebuilding`: the result of the paginated scan, dropping the
page count. -/
def is_rebuilding (script : List (Except Unit VolumePage)) :
    Option (Except Error Bool) :=
  (is_rebuilding_aux script 0).map Prod.fst

/-- `all_pods_are_ready` (utils.rs lines 100-127): walks the pod list
and returns `(false, name, namespace)` at the first pod having no
conditions or having any condition that is not `(Ready, True)`;
otherwise `(true, "", "")`.  A pod with an empty (but present)
condition list passes, exactly as in the source. -/
def all_pods_are_ready : List Pod → Bool × String × String
  | [] => (true, "", "")
  | pod :: rest =>
    match pod.status.bind (fun status => status.conditions) with
    | some conditions =>
      if conditions.all (fun c => c.type_ == "Ready" && c.status == "True") then
        all_pods_are_ready rest
      else (false, pod.name, pod.nspace)
    | none => (false, pod.name, pod.nspace)

/-- Generic shape of the source's `while pred().await? { sleep }` loops
(`wait_node_drain`, data_plane.rs lines 125-130), instrumented with the
number of predicate evaluations.  Each loop iteration consumes the next
scripted predicate result; `none` models a script too short (the loop
would keep polling). -/
def wait_while : List (Except Error Bool) → Option (Except Error Unit × Nat)
  | [] => none
  | r :: rest =>
    match r with
    | Except.error e => some (Except.error e, 1)
    | Except.ok false => some (Except.ok (), 1)
    | Except.ok true =>
      match wait_while rest with
      | some (res, n) => some (res, n + 1)
      | none => none

/-- `wait_node_drain` (data_plane.rs lines 125-130): polls `is_draining`
(sleeping 10s between polls) until it reports false; each poll consumes
one scripted `get_nodes` response. -/
def wait_node_drain (script : List (Except Unit (List StorageNode))) :
    Option (Except Error Unit × Nat) :=
  wait_while (script.map is_draining)

/-- A step of the observable timeline of a waiter: a sleep of a given
number of seconds, or one evaluation of the busy predicate. -/
inductive Event where
  | sleep (secs : Nat)
  | check
deriving DecidableEq, Repr

/-- The polling loop of `wait_for_rebuild` (data_plane.rs lines
145-147): evaluates `is_rebuilding`, sleeping 10s between evaluations,
until it reports false; emits the event timeline.  `none` result models
a script too short. -/
def rebuild_loop : List (Except Error Bool) → List Event × Option (Except Error Unit)
  | [] => ([], none)
  | r :: rest =>
    match r with
    | Except.error e => ([Event.check], some (Except.error e))
    | Except.ok false => ([Event.check], some (Except.ok ()))
    | Except.ok true =>
      let t := rebuild_loop rest
      (Event.check :: Event.sleep 10 :: t.1, t.2)

/-- `wait_for_rebuild` (data_plane.rs lines 142-149) as an event
timeline: an unconditional 60-second sleep, then the polling loop over
scripted rebuild-flag evaluations. -/
def wait_for_rebuild_events (preds : List (Except Error Bool)) :
    List Event × Option (Except Error Unit) :=
  (Event.sleep 60 :: (rebuild_loop preds).1, (rebuild_loop preds).2)

/-- `wait_for_rebuild` as run by the orchestrator: each poll evaluates
`is_rebuilding` against its own scripted pagination sequence. -/
def wait_for_rebuild_run : List (List (Except Unit VolumePage)) →
    Option (Except Error Unit)
  | [] => none
  | s :: rest =>
    match is_rebuilding s with
    | none => none
    | some (Except.error e) => some (Except.error e)
    | some (Except.ok false) => some (Except.ok ())
    | some (Except.ok true) => wait_for_rebuild_run rest

/-- Loop body of `is_data_plane_pod_running` (data_plane.rs lines
180-218): walks the pod list, errors on structural gaps, skips pods on
other nodes, and for a pod on the node folds over its conditions keeping
the LAST evaluated verdict (the source overwrites the flag on every
condition); a pod with an empty condition list leaves the flag
unchanged, a pod without conditions resets it to false. -/
def is_data_plane_pod_running_loop (node : String) (nspace : String)
    (acc : Bool) : List Pod → Except Error Bool
  | [] => Except.ok acc
  | pod :: rest =>
    match pod.spec with
    | none => Except.error (Error.EmptyPodSpec pod.name nspace)
    | some spec =>
      match spec.node_name with
      | none => Except.error (Error.EmptyPodNodeName pod.name nspace)
      | some node_name =>
        if node ≠ node_name then
          is_data_plane_pod_running_loop node nspace acc rest
        else
          let acc2 : Bool :=
            match pod.status.bind (fun status => status.conditions) with
            | some conditions =>
              conditions.foldl
                (fun _ c => c.type_ == "Ready" && c.status == "True") acc
            | none => false
          is_data_plane_pod_running_loop node nspace acc2 rest

/-- `is_data_plane_pod_running` (data_plane.rs lines 167-220): lists the
io-engine pods (scripted response) and reports the flag computed by the
loop, starting from `false`. -/
def is_data_plane_pod_running (node : String) (nspace : String)
    (resp : Except Unit (List Pod)) : Except Error Bool :=
  match resp with
  | Except.error _ => Except.error (Error.ListPodsWithLabel IO_ENGINE_LABEL nspace)
  | Except.ok pods => is_data_plane_pod_running_loop node nspace false pods

/-- `verify_data_plane_pod_is_running` (data_plane.rs lines 133-139):
`while is_data_plane_pod_running(..) { sleep 10s }`, one scripted pod
list per poll, instrumented with the number of polls.  Note the source
loops WHILE the check reports true and returns once it reports false. -/
def verify_data_plane_pod_is_running (node : String) (nspace : String) :
    List (Except Unit (List Pod)) → Option (Except Error Unit × Nat)
  | [] => none
  | resp :: rest =>
    match is_data_plane_pod_running node nspace resp with
    | Except.error e => some (Except.error e, 1)
    | Except.ok false => some (Except.ok (), 1)
    | Except.ok true =>
      match verify_data_plane_pod_is_running node nspace rest with
      | some (res, n) => some (res, n + 1)
      | none => none

/-- Scripted responses to the three pod-list queries of
`is_control_plane_running`: core agents, API gateway, etcd. -/
structure ControlPlaneEnv where
  core : Except Unit (List Pod)
  rest : Except Unit (List Pod)
  etcd : Except Unit (List Pod)
deriving Repr

/-- `is_control_plane_running` (data_plane.rs lines 222-273):
checks agent-core, then api-rest, then etcd pods, failing fast on the
first list error or first component with a not-ready pod.  The first
component of the result records which label selectors were actually
queried, in order. -/
def is_control_plane_running (nspace : String) (env : ControlPlaneEnv) :
    List String × Except Error Unit :=
  match env.core with
  | Except.error _ =>
    ([AGENT_CORE_LABEL], Except.error (Error.ListPodsWithLabel AGENT_CORE_LABEL nspace))
  | Except.ok core_pods =>
    let core_result := all_pods_are_ready core_pods
    if !core_result.1 then
      ([AGENT_CORE_LABEL],
       Except.error (Error.ValidatingPodRunningStatus core_result.2.1 core_result.2.2))
    else
      match env.rest with
      | Except.error _ =>
        ([AGENT_CORE_LABEL, API_REST_LABEL],
         Except.error (Error.ListPodsWithLabel API_REST_LABEL nspace))
      | Except.ok rest_pods =>
        let rest_result := all_pods_are_ready rest_pods
        if !rest_result.1 then
          ([AGENT_CORE_LABEL, API_REST_LABEL],
           Except.error (Error.ValidatingPodRunningStatus rest_result.2.1 rest_result.2.2))
        else
          match env.etcd with
          | Except.error _ =>
            ([AGENT_CORE_LABEL, API_REST_LABEL, ETCD_LABEL],
             Except.error (Error.ListPodsWithLabel ETCD_LABEL nspace))
          | Except.ok etcd_pods =>
            let etcd_result := all_pods_are_ready etcd_pods
            if !etcd_result.1 then
              ([AGENT_CORE_LABEL, API_REST_LABEL, ETCD_LABEL],
               Except.error (Error.ValidatingPodRunningStatus etcd_result.2.1 etcd_result.2.2))
            else
              ([AGENT_CORE_LABEL, API_REST_LABEL, ETCD_LABEL], Except.ok ())

/-- An outward request issued by the orchestrator: a node drain, a pod
delete, or a node uncordon (recorded when the corresponding API call is
made, whatever its outcome). -/
inductive Req where
  | drain (node : String)
  | deletePod (name : String) (node : String)
  | uncordon (node : String)
deriving DecidableEq, Repr

/-- Scripted outcomes of the external calls made while processing one
data-plane pod in `upgrade_data_plane`: the `get_node` response feeding
`is_node_cordoned`, the drain / delete / uncordon request outcomes, the
`get_nodes` responses consumed by `wait_node_drain`, the per-poll
pagination scripts consumed by `wait_for_rebuild`, the pod-list
responses consumed by `verify_data_plane_pod_is_running`, and the three
responses consumed by `is_control_plane_running`. -/
structure PodEnv where
  get_node : Except Unit StorageNode
  drain_res : Except Unit Unit
  drain_script : List (Except Unit (List StorageNode))
  rebuild_script : List (List (Except Unit VolumePage))
  delete_res : Except Unit Unit
  uncordon_res : Except Unit Unit
  verify_script : List (Except Unit (List Pod))
  health : ControlPlaneEnv
deriving Repr

/-- The tail of the `upgrade_data_plane` loop body after the
conditional uncordon (data_plane.rs lines 80-84): the
replacement-readiness wait and the control-plane verification. -/
def process_pod_tail (nspace : String) (node_name : String)
    (env : PodEnv) (acts : List Req) :
    List Req × Option (Except Error Unit) :=
  match verify_data_plane_pod_is_running node_name nspace env.verify_script with
  | none => (acts, none)
  | some (Except.error e, _) => (acts, some (Except.error e))
  | some (Except.ok _, _) =>
    match (is_control_plane_running nspace env.health).2 with
    | Except.error e => (acts, some (Except.error e))
    | Except.ok _ => (acts, some (Except.ok ()))

/-- The per-pod body of the `upgrade_data_plane` loop (data_plane.rs
lines 38-85): resolve the hosting node, snapshot the cordon state, issue
the drain, wait for cluster-wide drain then rebuild quiescence, delete
the pod, uncordon unless the node was cordoned beforehand, wait for the
replacement check, then verify the control plane.  Returns the requests
issued and `some` result, or `none` when a polling loop never returns. -/
def process_pod (nspace : String) (pod : Pod) (env : PodEnv) :
    List Req × Option (Except Error Unit) :=
  match pod.spec with
  | none => ([], some (Except.error (Error.EmptyPodSpec pod.name nspace)))
  | some spec =>
    match spec.node_name with
    | none => ([], some (Except.error (Error.EmptyPodNodeName pod.name nspace)))
    | some node_name =>
      match is_node_cordoned node_name env.get_node with
      | Except.error e => ([], some (Except.error e))
      | Except.ok cordoned =>
        match env.drain_res with
        | Except.error _ =>
          ([Req.drain node_name],
           some (Except.error (Error.DrainStorageNode node_name)))
        | Except.ok _ =>
          match wait_node_drain env.drain_script with
          | none => ([Req.drain node_name], none)
          | some (Except.error e, _) =>
            ([Req.drain node_name], some (Except.error e))
          | some (Except.ok _, _) =>
            match wait_for_rebuild_run env.rebuild_script with
            | none => ([Req.drain node_name], none)
            | some (Except.error e) =>
              ([Req.drain node_name], some (Except.error e))
            | some (Except.ok _) =>
              let acts1 := [Req.drain node_name,
                            Req.deletePod pod.name node_name]
              match env.delete_res with
              | Except.error _ =>
                (acts1, some (Except.error (Error.PodDeleteError pod.name node_name)))
              | Except.ok _ =>
                if cordoned then process_pod_tail nspace node_name env acts1
                else
                  let acts2 := acts1 ++ [Req.uncordon node_name]
                  match env.uncordon_res with
                  | Except.error _ =>
                    (acts2, some (Except.error (Error.StorageNodeUncordon node_name)))
                  | Except.ok _ => process_pod_tail nspace node_name env acts2

/-- The pod loop of `upgrade_data_plane` (data_plane.rs lines 38-85):
processes pods in list order, aborting the run on the first error;
`envs i` scripts the external world for the pod at position `i`. -/
def upgrade_loop (nspace : String) (envs : Nat → PodEnv) :
    List Pod → Nat → List Req × Option (Except Error Unit)
  | [], _ => ([], some (Except.ok ()))
  | pod :: rest, i =>
    match process_pod nspace pod (envs i) with
    | (acts, some (Except.ok _)) =>
      let t := upgrade_loop nspace envs rest (i + 1)
      (acts ++ t.1, t.2)
    | (acts, some (Except.error e)) => (acts, some (Except.error e))
    | (acts, none) => (acts, none)

/-- `upgrade_data_plane` (data_plane.rs lines 25-87): lists the
io-engine pods (scripted response) and runs the per-pod loop. -/
def upgrade_data_plane (nspace : String)
    (list_resp : Except Unit (List Pod)) (envs : Nat → PodEnv) :
    List Req × Option (Except Error Unit) :=
  match list_resp with
  | Except.error _ =>
    ([], some (Except.error (Error.ListPodsWithLabel IO_ENGINE_LABEL nspace)))
  | Except.ok pods => upgrade_loop nspace envs pods 0

/-- Fixture: a `Ready = True` pod condition. -/
def readyCond : PodCondition := ⟨"Ready", "True"⟩

/-- Fixture: a `Ready = False` pod condition. -/
def notReadyCond : PodCondition := ⟨"Ready", "False"⟩

/-- Fixture: a `PodScheduled = True` pod condition. -/
def schedCond : PodCondition := ⟨"PodScheduled", "True"⟩

/-- Fixture: a pod in namespace `mayastor` scheduled on `node`, with the
given condition list. -/
def mkPod (name node : String) (conds : Option (List PodCondition)) : Pod :=
  ⟨name, "mayastor", some ⟨some node⟩, some ⟨conds⟩⟩

/-- Fixture: a storage node currently in the `Draining` state. -/
def drainingNode : StorageNode :=
  ⟨"node-1", some ⟨some CordonDrainState.drainingstate⟩⟩

/-- Fixture: a storage node with no cordon/drain state. -/
def plainNode : StorageNode := ⟨"node-1", some ⟨none⟩⟩

/-- C9: when the node-list query of `is_draining` fails, the propagated
error is the `ListStorageVolumes` variant (the volume-list error), not
`ListStorageNodes`: the operation context names the wrong operation. -/
theorem c9_is_draining_wrong_error_variant :
    is_draining (Except.error ()) = Except.error Error.ListStorageVolumes ∧
    Error.ListStorageVolumes ≠ Error.ListStorageNodes :=
  ⟨rfl, by decide⟩

/-- C1 (code evaluated at the failing input): the replacement waiter
`verify_data_plane_pod_is_running` loops WHILE the pod reports ready —
on a single observation of a NOT-ready replacement pod it returns
success after one poll, and when the pod is ready it keeps polling; the
loop polarity is inverted with respect to the documented intent of
waiting until the new pod is running. -/
theorem c1_verify_returns_while_not_ready :
    verify_data_plane_pod_is_running "node-1" "mayastor"
        [Except.ok [mkPod "io-engine-1" "node-1" (some [notReadyCond])]] =
      some (Except.ok (), 1) ∧
    verify_data_plane_pod_is_running "node-1" "mayastor"
        [Except.ok [mkPod "io-engine-1" "node-1" (some [readyCond])],
         Except.ok [mkPod "io-engine-1" "node-1" (some [notReadyCond])]] =
      some (Except.ok (), 2) :=
  ⟨rfl, rfl⟩

/-- C6 (code evaluated at the failing input): `all_pods_are_ready`
rejects a pod whose condition list contains `PodScheduled = True`
alongside a true `Ready` condition, and accepts a pod whose condition
list is present but empty (no `Ready` condition at all) — so a pod's
other conditions do change the verdict, contrary to the documented
`Ready`-only check. -/
theorem c6_all_pods_are_ready_other_conditions :
    all_pods_are_ready [mkPod "core-0" "node-1" (some [schedCond, readyCond])] =
      (false, "core-0", "mayastor") ∧
    all_pods_are_ready [mkPod "core-0" "node-1" (some [])] = (true, "", "") :=
  ⟨rfl, rfl⟩

/-- C5: `is_control_plane_running` checks the components in the fixed
order core, API gateway, coordination store, and for whichever
component is the first to fail — list error or a not-ready pod — it
fails with that component's error having queried exactly the selectors
up to and including that component (so no subsequent component is
listed or evaluated); it succeeds only when all three components were
queried and every one passed. -/
theorem c5_control_plane_fail_fast (nspace : String) (env : ControlPlaneEnv) :
    (∀ pods, env.core = Except.ok pods → (all_pods_are_ready pods).1 = false →
       is_control_plane_running nspace env =
         ([AGENT_CORE_LABEL],
          Except.error (Error.ValidatingPodRunningStatus
            (all_pods_are_ready pods).2.1 (all_pods_are_ready pods).2.2))) ∧
    (env.core = Except.error () →
       is_control_plane_running nspace env =
         ([AGENT_CORE_LABEL],
          Except.error (Error.ListPodsWithLabel AGENT_CORE_LABEL nspace))) ∧
    (∀ p1 pods, env.core = Except.ok p1 → (all_pods_are_ready p1).1 = true →
       env.rest = Except.ok pods → (all_pods_are_ready pods).1 = false →
       is_control_plane_running nspace env =
         ([AGENT_CORE_LABEL, API_REST_LABEL],
          Except.error (Error.ValidatingPodRunningStatus
            (all_pods_are_ready pods).2.1 (all_pods_are_ready pods).2.2))) ∧
    (∀ p1, env.core = Except.ok p1 → (all_pods_are_ready p1).1 = true →
       env.rest = Except.error () →
       is_control_plane_running nspace env =
         ([AGENT_CORE_LABEL, API_REST_LABEL],
          Except.error (Error.ListPodsWithLabel API_REST_LABEL nspace))) ∧
    (∀ p1 p2 pods, env.core = Except.ok p1 → (all_pods_are_ready p1).1 = true →
       env.rest = Except.ok p2 → (all_pods_are_ready p2).1 = true →
       env.etcd = Except.ok pods → (all_pods_are_ready pods).1 = false →
       is_control_plane_running nspace env =
         ([AGENT_CORE_LABEL, API_REST_LABEL, ETCD_LABEL],
          Except.error (Error.ValidatingPodRunningStatus
            (all_pods_are_ready pods).2.1 (all_pods_are_ready pods).2.2))) ∧
    (∀ p1 p2, env.core = Except.ok p1 → (all_pods_are_ready p1).1 = true →
       env.rest = Except.ok p2 → (all_pods_are_ready p2).1 = true →
       env.etcd = Except.error () →
       is_control_plane_running nspace env =
         ([AGENT_CORE_LABEL, API_REST_LABEL, ETCD_LABEL],
          Except.error (Error.ListPodsWithLabel ETCD_LABEL nspace))) ∧
    ((is_control_plane_running nspace env).2 = Except.ok () →
       (is_control_plane_running nspace env).1 =
           [AGENT_CORE_LABEL, API_REST_LABEL, ETCD_LABEL] ∧
       ∃ p1 p2 p3,
         env.core = Except.ok p1 ∧ (all_pods_are_ready p1).1 = true ∧
         env.rest = Except.ok p2 ∧ (all_pods_are_ready p2).1 = true ∧
         env.etcd = Except.ok p3 ∧ (all_pods_are_ready p3).1 = true) := by
  refine ⟨?_, ?_, ?_, ?_, ?_, ?_, ?_⟩
  · intro pods hc hf
    simp [is_control_plane_running, hc, hf]
  · intro hc
    simp [is_control_plane_running, hc]
  · intro p1 pods hc hr1 hr hf
    simp [is_control_plane_running, hc, hr1, hr, hf]
  · intro p1 hc hr1 hr
    simp [is_control_plane_running, hc, hr1, hr]
  · intro p1 p2 pods hc hr1 hr hr2 he hf
    simp [is_control_plane_running, hc, hr1, hr, hr2, he, hf]
  · intro p1 p2 hc hr1 hr hr2 he
    simp [is_control_plane_running, hc, hr1, hr, hr2, he]
  · intro hok
    cases hcore : env.core with
    | error u => simp [is_control_plane_running, hcore] at hok
    | ok p1 =>
      cases hr1 : (all_pods_are_ready p1).1 with
      | false => simp [is_control_plane_running, hcore, hr1] at hok
      | true =>
        cases hrest : env.rest with
        | error u => simp [is_control_plane_running, hcore, hr1, hrest] at hok
        | ok p2 =>
          cases hr2 : (all_pods_are_ready p2).1 with
          | false => simp [is_control_plane_running, hcore, hr1, hrest, hr2] at hok
          | true =>
            cases hetcd : env.etcd with
            | error u =>
              simp [is_control_plane_running, hcore, hr1, hrest, hr2, hetcd] at hok
            | ok p3 =>
              cases hr3 : (all_pods_are_ready p3).1 with
              | false =>
                simp [is_control_plane_running, hcore, hr1, hrest, hr2, hetcd, hr3]
                  at hok
              | true =>
                refine ⟨?_, p1, p2, p3, rfl, hr1, rfl, hr2, rfl, hr3⟩
                simp [is_control_plane_running, hcore, hr1, hrest, hr2, hetcd, hr3]

/-- C5 witness: with a not-ready core pod the verifier queries only the
core selector and reports that pod; with a healthy core and a not-ready
gateway pod it queries exactly the core and gateway selectors — the
etcd selector is never queried — and reports the gateway pod. -/
theorem c5_witness :
    is_control_plane_running "mayastor"
        ⟨Except.ok [mkPod "core-0" "node-1" (some [notReadyCond])],
         Except.ok [], Except.ok []⟩ =
      ([AGENT_CORE_LABEL],
       Except.error (Error.ValidatingPodRunningStatus "core-0" "mayastor")) ∧
    is_control_plane_running "mayastor"
        ⟨Except.ok [], Except.ok [mkPod "rest-0" "node-1" (some [notReadyCond])],
         Except.ok []⟩ =
      ([AGENT_CORE_LABEL, API_REST_LABEL],
       Except.error (Error.ValidatingPodRunningStatus "rest-0" "mayastor")) :=
  ⟨(c5_control_plane_fail_fast "mayastor"
      ⟨Except.ok [mkPod "core-0" "node-1" (some [notReadyCond])],
       Except.ok [], Except.ok []⟩).1
    [mkPod "core-0" "node-1" (some [notReadyCond])] rfl rfl,
   (c5_control_plane_fail_fast "mayastor"
      ⟨Except.ok [], Except.ok [mkPod "rest-0" "node-1" (some [notReadyCond])],
       Except.ok []⟩).2.2.1
    [] [mkPod "rest-0" "node-1" (some [notReadyCond])] rfl rfl rfl rfl⟩

/-- A scripted `get_nodes` sequence making `is_draining` report
`[true, true, false]`: a draining node on the first two polls, then an
empty node list. -/
def drainScriptTTF : List (Except Unit (List StorageNode)) :=
  [Except.ok [drainingNode], Except.ok [drainingNode], Except.ok []]

/-- A successful `wait_while` run of `n` predicate evaluations saw
`false` at evaluation `n` and `true` at every earlier evaluation. -/
theorem wait_while_ok_spec (preds : List (Except Error Bool)) :
    ∀ n : Nat, wait_while preds = some (Except.ok (), n) →
      1 ≤ n ∧ preds.get? (n - 1) = some (Except.ok false) ∧
        ∀ j, j < n - 1 → preds.get? j = some (Except.ok true) := by
  induction preds with
  | nil => intro n h; simp [wait_while] at h
  | cons r rest ih =>
    intro n h
    match r with
    | Except.error e => simp [wait_while] at h
    | Except.ok false =>
      simp [wait_while] at h
      subst h
      exact ⟨le_refl 1, rfl, fun j hj => absurd hj (by omega)⟩
    | Except.ok true =>
      simp only [wait_while] at h
      cases hrec : wait_while rest with
      | none => rw [hrec] at h; simp at h
      | some p =>
        obtain ⟨res, m⟩ := p
        rw [hrec] at h
        simp only [Option.some.injEq, Prod.mk.injEq] at h
        obtain ⟨hres, hn⟩ := h
        subst hn
        obtain ⟨hm, hlast, hprev⟩ := ih m (by rw [hrec, hres])
        obtain ⟨i, rfl⟩ : ∃ i, m = i + 1 := ⟨m - 1, by omega⟩
        refine ⟨by omega, ?_, ?_⟩
        · simpa using hlast
        · intro j hj
          cases j with
          | zero => rfl
          | succ i2 =>
            have : i2 < i + 1 - 1 := by omega
            simpa using hprev i2 this

/-- A successful `rebuild_loop` run saw `false` at some evaluation and
`true` at every earlier one. -/
theorem rebuild_loop_ok_spec (preds : List (Except Error Bool)) :
    (rebuild_loop preds).2 = some (Except.ok ()) →
    ∃ k, preds.get? k = some (Except.ok false) ∧
      ∀ j, j < k → preds.get? j = some (Except.ok true) := by
  induction preds with
  | nil => intro h; simp [rebuild_loop] at h
  | cons r rest ih =>
    intro h
    match r with
    | Except.error e => simp [rebuild_loop] at h
    | Except.ok false =>
      exact ⟨0, rfl, fun j hj => absurd hj (by omega)⟩
    | Except.ok true =>
      simp only [rebuild_loop] at h
      obtain ⟨k, hk, hprev⟩ := ih h
      refine ⟨k + 1, by simpa using hk, ?_⟩
      intro j hj
      cases j with
      | zero => rfl
      | succ i => simpa using hprev i (by omega)

/-- C4 counterexample: on the scripted predicate sequence
`[true, true, false]` the drain waiter performs three predicate
evaluations, not two. -/
theorem c4_counterexample :
    wait_node_drain drainScriptTTF = some (Except.ok (), 3) ∧ (3 : Nat) ≠ 2 :=
  ⟨rfl, by decide⟩

/-- C4 (amended): the waiters never return successfully while their
predicate reports true — a successful run's final predicate evaluation
reported false and every earlier one reported true — and on the
scripted sequence `[true, true, false]` the drain waiter performs
exactly three predicate evaluations (two reporting busy, then the
clearing one). -/
theorem c4_waiters_never_return_busy :
    (∀ (preds : List (Except Error Bool)) (n : Nat),
        wait_while preds = some (Except.ok (), n) →
        1 ≤ n ∧ preds.get? (n - 1) = some (Except.ok false) ∧
          ∀ j, j < n - 1 → preds.get? j = some (Except.ok true)) ∧
    (∀ preds : List (Except Error Bool),
        (rebuild_loop preds).2 = some (Except.ok ()) →
        ∃ k, preds.get? k = some (Except.ok false) ∧
          ∀ j, j < k → preds.get? j = some (Except.ok true)) ∧
    wait_node_drain drainScriptTTF = some (Except.ok (), 3) :=
  ⟨wait_while_ok_spec, rebuild_loop_ok_spec, rfl⟩

/-- C4 witness: the waiter characterization applied to the one-element
script `[false]`: the single (final) evaluation reported false. -/
theorem c4_witness :
    ([Except.ok false] : List (Except Error Bool)).get? 0 =
      some (Except.ok false) :=
  (c4_waiters_never_return_busy.1 [Except.ok false] 1 rfl).2.1

/-- The expected polling timeline after the grace period: `k` busy
evaluations, each followed by a 10-second sleep, then the clearing
evaluation. -/
def poll_trace : Nat → List Event
  | 0 => [Event.check]
  | k + 1 => Event.check :: Event.sleep 10 :: poll_trace k

/-- C8: `wait_for_rebuild` always begins with the fixed 60-second grace
sleep — its timeline's first event is `sleep 60`, so no rebuild check
precedes the grace period — and on a script of `k` busy polls followed
by a clear one its timeline is exactly the grace sleep, then checks
separated by 10-second sleeps, ending successfully at the clearing
check. -/
theorem c8_rebuild_grace_period :
    (∀ preds : List (Except Error Bool),
        ((wait_for_rebuild_events preds).1).head? = some (Event.sleep 60)) ∧
    (∀ (k : Nat) (rest : List (Except Error Bool)),
        wait_for_rebuild_events
            (List.replicate k (Except.ok true) ++ Except.ok false :: rest) =
          (Event.sleep 60 :: poll_trace k, some (Except.ok ()))) := by
  constructor
  · intro preds
    rfl
  · intro k rest
    induction k with
    | zero => rfl
    | succ i ih =>
      simp only [List.replicate, List.cons_append]
      simp only [wait_for_rebuild_events, rebuild_loop, poll_trace] at ih ⊢
      rw [Prod.mk.injEq] at ih ⊢
      obtain ⟨h1, h2⟩ := ih
      rw [List.cons.injEq] at h1
      exact ⟨by rw [h1.2], h2⟩

/-- A well-formed pagination of the volume inventory: at least one
page, every page but the last carries a continuation token, and the
last page carries none (the control-plane's end-of-inventory signal). -/
def wf_pages : List VolumePage → Bool
  | [] => false
  | [p] => p.next_token.isNone
  | p :: q :: qs => p.next_token.isSome && wf_pages (q :: qs)

/-- Over a well-formed pagination with no transport failures, the
paginated scan reports a rebuild iff some page holds a volume with an
active rebuild marker. -/
theorem is_rebuilding_aux_true_iff (pages : List VolumePage) :
    ∀ n : Nat, wf_pages pages = true →
      (((is_rebuilding_aux (pages.map Except.ok) n).map Prod.fst =
          some (Except.ok true)) ↔
        pages.any (fun p => p.entries.any volume_has_rebuild) = true) := by
  induction pages with
  | nil => intro n h; simp [wf_pages] at h
  | cons p ps ih =>
    intro n h
    by_cases hp : p.entries.any volume_has_rebuild = true
    · simp [is_rebuilding_aux, hp]
    · rw [Bool.not_eq_true] at hp
      cases ht : p.next_token with
      | none =>
        cases ps with
        | nil => simp [is_rebuilding_aux, hp, ht]
        | cons q qs => simp [wf_pages, ht] at h
      | some t =>
        cases ps with
        | nil => simp [wf_pages, ht] at h
        | cons q qs =>
          have hwf : wf_pages (q :: qs) = true := by
            simp [wf_pages] at h; exact h.2
          have step :
              is_rebuilding_aux ((p :: q :: qs).map Except.ok) n =
                is_rebuilding_aux ((q :: qs).map Except.ok) (n + 1) := by
            simp [is_rebuilding_aux, hp, ht]
          rw [step, ih (n + 1) hwf]
          simp [hp]

/-- Over a well-formed pagination with no transport failures, a `false`
verdict is produced only after fetching every page. -/
theorem is_rebuilding_aux_false_count (pages : List VolumePage) :
    ∀ n k : Nat, wf_pages pages = true →
      is_rebuilding_aux (pages.map Except.ok) n = some (Except.ok false, k) →
      k = n + pages.length := by
  induction pages with
  | nil => intro n k h _; simp [wf_pages] at h
  | cons p ps ih =>
    intro n k h hrun
    by_cases hp : p.entries.any volume_has_rebuild = true
    · simp [is_rebuilding_aux, hp] at hrun
    · rw [Bool.not_eq_true] at hp
      cases ht : p.next_token with
      | none =>
        cases ps with
        | nil =>
          simp [is_rebuilding_aux, hp, ht] at hrun
          simp [List.length, ← hrun]
        | cons q qs => simp [wf_pages, ht] at h
      | some t =>
        cases ps with
        | nil => simp [wf_pages, ht] at h
        | cons q qs =>
          have hwf : wf_pages (q :: qs) = true := by
            simp [wf_pages] at h; exact h.2
          have step :
              is_rebuilding_aux ((p :: q :: qs).map Except.ok) n =
                is_rebuilding_aux ((q :: qs).map Except.ok) (n + 1) := by
            simp [is_rebuilding_aux, hp, ht]
          rw [step] at hrun
          have := ih (n + 1) k hwf hrun
          simp [List.length] at this ⊢
          omega

/-- When every page before a failing request carries a token and no
rebuild marker, the paginated scan reaches the failure and reports the
volume-list error. -/
theorem is_rebuilding_aux_error (good : List VolumePage) :
    ∀ (rest : List (Except Unit VolumePage)) (n : Nat),
      (∀ p ∈ good, p.next_token.isSome = true ∧
          p.entries.any volume_has_rebuild = false) →
      (is_rebuilding_aux (good.map Except.ok ++ Except.error () :: rest) n).map
          Prod.fst =
        some (Except.error Error.ListStorageVolumes) := by
  induction good with
  | nil => intro rest n _; simp [is_rebuilding_aux]
  | cons p ps ih =>
    intro rest n hgood
    obtain ⟨hsome, hnr⟩ := hgood p (List.mem_cons_self p ps)
    obtain ⟨t, ht⟩ := Option.isSome_iff_exists.mp hsome
    have step :
        is_rebuilding_aux ((p :: ps).map Except.ok ++ Except.error () :: rest) n =
          is_rebuilding_aux (ps.map Except.ok ++ Except.error () :: rest) (n + 1) := by
      simp [is_rebuilding_aux, hnr, ht]
    rw [step]
    exact ih rest (n + 1) (fun q hq => hgood q (List.mem_cons_of_mem p hq))

/-- Fixture: a volume whose replication target has a child with an
active rebuild marker. -/
def rebuildVol : Volume := ⟨⟨some ⟨[⟨some 50⟩]⟩⟩⟩

/-- C2: over every well-formed pagination sequence, `is_rebuilding`
returns true iff some page holds a volume with a rebuild marker; a
`false` verdict requires having fetched every page (the count of
`get_volumes` calls equals the number of pages, the last carrying no
continuation token); and a failing page request — reached because every
earlier page carried a token and no marker — fails the whole call with
the volume-list error. -/
theorem c2_is_rebuilding_exhaustive (pages good : List VolumePage)
    (rest : List (Except Unit VolumePage))
    (h : wf_pages pages = true)
    (hgood : ∀ p ∈ good, p.next_token.isSome = true ∧
        p.entries.any volume_has_rebuild = false) :
    (is_rebuilding (pages.map Except.ok) = some (Except.ok true) ↔
       pages.any (fun p => p.entries.any volume_has_rebuild) = true) ∧
    (∀ k, is_rebuilding_aux (pages.map Except.ok) 0 =
        some (Except.ok false, k) → k = pages.length) ∧
    is_rebuilding (good.map Except.ok ++ Except.error () :: rest) =
      some (Except.error Error.ListStorageVolumes) := by
  refine ⟨?_, ?_, ?_⟩
  · exact is_rebuilding_aux_true_iff pages 0 h
  · intro k hk
    simpa using is_rebuilding_aux_false_count pages 0 k h hk
  · exact is_rebuilding_aux_error good rest 0 hgood

/-- C2 witness: a one-page inventory holding a rebuilding volume
reports true, and an immediately failing page request reports the
volume-list error. -/
theorem c2_witness :
    is_rebuilding [Except.ok ⟨[rebuildVol], none⟩] = some (Except.ok true) ∧
    is_rebuilding [Except.error ()] = some (Except.error Error.ListStorageVolumes) :=
  ⟨((c2_is_rebuilding_exhaustive [⟨[rebuildVol], none⟩] [] [] rfl
        (fun p hp => absurd hp (List.not_mem_nil p))).1).mpr rfl,
   (c2_is_rebuilding_exhaustive [⟨[rebuildVol], none⟩] [] [] rfl
        (fun p hp => absurd hp (List.not_mem_nil p))).2.2⟩

/-- The post-uncordon tail never adds requests: its request list is the
one it was given. -/
theorem process_pod_tail_fst (nspace node_name : String) (env : PodEnv)
    (acts : List Req) : (process_pod_tail nspace node_name env acts).1 = acts := by
  unfold process_pod_tail
  split
  · rfl
  · rfl
  · split <;> rfl

/-- Processing a pod whose pre-drain cordon snapshot is `true` never
issues an uncordon request, whatever the rest of the run does. -/
theorem process_pod_no_uncordon (nspace : String) (pod : Pod) (env : PodEnv)
    (s : PodSpec) (node_name : String)
    (hs : pod.spec = some s) (hn : s.node_name = some node_name)
    (hc : is_node_cordoned node_name env.get_node = Except.ok true) :
    ∀ m, Req.uncordon m ∉ (process_pod nspace pod env).1 := by
  intro m
  obtain ⟨gn, dr, ds, rs, del, unc, vs, hl⟩ := env
  simp only at hc
  simp only [process_pod, hs, hn, hc]
  cases dr with
  | error u => simp
  | ok u =>
    generalize wait_node_drain ds = w
    cases w with
    | none => simp
    | some p =>
      obtain ⟨res, k⟩ := p
      cases res with
      | error e => simp
      | ok u2 =>
        generalize wait_for_rebuild_run rs = r
        cases r with
        | none => simp
        | some res2 =>
          cases res2 with
          | error e => simp
          | ok u3 =>
            cases del with
            | error u4 => simp
            | ok u4 =>
              simp only [if_true]
              rw [process_pod_tail_fst]
              simp

/-- Processing a pod whose pre-drain cordon snapshot is `false` issues
an uncordon request for its node whenever the run succeeds. -/
theorem process_pod_uncordon_mem (nspace : String) (pod : Pod) (env : PodEnv)
    (s : PodSpec) (node_name : String)
    (hs : pod.spec = some s) (hn : s.node_name = some node_name)
    (hc : is_node_cordoned node_name env.get_node = Except.ok false)
    (hok : (process_pod nspace pod env).2 = some (Except.ok ())) :
    Req.uncordon node_name ∈ (process_pod nspace pod env).1 := by
  obtain ⟨gn, dr, ds, rs, del, unc, vs, hl⟩ := env
  simp only at hc
  simp only [process_pod, hs, hn, hc] at hok ⊢
  cases dr with
  | error u => simp at hok
  | ok u =>
    generalize hw : wait_node_drain ds = w at hok ⊢
    cases w with
    | none => simp at hok
    | some p =>
      obtain ⟨res, k⟩ := p
      cases res with
      | error e => simp at hok
      | ok u2 =>
        generalize hr : wait_for_rebuild_run rs = r at hok ⊢
        cases r with
        | none => simp at hok
        | some res2 =>
          cases res2 with
          | error e => simp at hok
          | ok u3 =>
            cases del with
            | error u4 => simp at hok
            | ok u4 =>
              simp only [Bool.false_eq_true, if_false] at hok ⊢
              cases unc with
              | error u5 => simp at hok
              | ok u5 =>
                rw [process_pod_tail_fst]
                simp

/-- Fixture: a per-pod environment in which every external call
succeeds: the node is uncordoned, the drain completes on the first
poll, no rebuild is reported, and all health checks pass. -/
def successEnv : PodEnv :=
  ⟨Except.ok plainNode, Except.ok (), [Except.ok []],
   [[Except.ok ⟨[], none⟩]], Except.ok (), Except.ok (),
   [Except.ok []], ⟨Except.ok [], Except.ok [], Except.ok []⟩⟩

/-- C3: with the cordon state snapshotted before the drain, a node seen
as cordoned is never uncordoned by the orchestrator, and on a
successfully processed pod the uncordon request is issued iff that
snapshot was not-cordoned. -/
theorem c3_conditional_uncordon (nspace : String) (pod : Pod) (env : PodEnv)
    (s : PodSpec) (node_name : String) (b : Bool)
    (hs : pod.spec = some s) (hn : s.node_name = some node_name)
    (hc : is_node_cordoned node_name env.get_node = Except.ok b) :
    (b = true → ∀ m, Req.uncordon m ∉ (process_pod nspace pod env).1) ∧
    ((process_pod nspace pod env).2 = some (Except.ok ()) →
       (Req.uncordon node_name ∈ (process_pod nspace pod env).1 ↔ b = false)) := by
  constructor
  · intro hb m
    exact process_pod_no_uncordon nspace pod env s node_name hs hn (hb ▸ hc) m
  · intro hok
    constructor
    · intro hmem
      by_contra hbf
      have hb : b = true := by
        cases b
        · exact absurd rfl hbf
        · rfl
      exact process_pod_no_uncordon nspace pod env s node_name hs hn (hb ▸ hc)
        node_name hmem
    · intro hb
      exact process_pod_uncordon_mem nspace pod env s node_name hs hn (hb ▸ hc) hok

/-- C3 witness: a successful run on an un-cordoned node issues the
uncordon request. -/
theorem c3_witness :
    Req.uncordon "node-1" ∈
      (process_pod "mayastor" (mkPod "io-1" "node-1" (some [])) successEnv).1 :=
  ((c3_conditional_uncordon "mayastor" (mkPod "io-1" "node-1" (some []))
      successEnv ⟨some "node-1"⟩ "node-1" false rfl rfl rfl).2 rfl).mpr rfl

/-- Fixture: `successEnv` with the node reported as `Draining` before
the upgrade acts. -/
def drainingEnv : PodEnv := { successEnv with get_node := Except.ok drainingNode }

/-- C10: the pre-upgrade cordon snapshot is `false` for every node
whose cordon/drain state is not strictly `Cordoned` (so `Draining`,
`Drained` and stateless nodes all snapshot false), and the orchestrator
consequently issues an uncordon for such a node on a successful run. -/
theorem c10_cordon_snapshot_strict (node_name : String) (n : StorageNode)
    (sp : NodeSpec) (hsp : n.spec = some sp)
    (hstate : sp.cordondrainstate ≠ some CordonDrainState.cordonedstate) :
    is_node_cordoned node_name (Except.ok n) = Except.ok false ∧
    (∀ (nspace : String) (pod : Pod) (env : PodEnv) (s : PodSpec),
        pod.spec = some s → s.node_name = some node_name →
        env.get_node = Except.ok n →
        (process_pod nspace pod env).2 = some (Except.ok ()) →
        Req.uncordon node_name ∈ (process_pod nspace pod env).1) := by
  have h1 : is_node_cordoned node_name (Except.ok n) = Except.ok false := by
    simp only [is_node_cordoned, hsp]
    cases hcd : sp.cordondrainstate with
    | none => rfl
    | some st =>
      cases st with
      | cordonedstate => exact absurd hcd hstate
      | drainingstate => rfl
      | drainedstate => rfl
  refine ⟨h1, ?_⟩
  intro nspace pod env s hs hn hg hok
  exact process_pod_uncordon_mem nspace pod env s node_name hs hn
    (by rw [hg, h1]) hok

/-- C10 witness: a draining node snapshots as not-cordoned and a
successful run issues its uncordon. -/
theorem c10_witness :
    is_node_cordoned "node-1" (Except.ok drainingNode) = Except.ok false ∧
    Req.uncordon "node-1" ∈
      (process_pod "mayastor" (mkPod "io-1" "node-1" (some [])) drainingEnv).1 :=
  ⟨(c10_cordon_snapshot_strict "node-1" drainingNode
      ⟨some CordonDrainState.drainingstate⟩ rfl (by decide)).1,
   (c10_cordon_snapshot_strict "node-1" drainingNode
      ⟨some CordonDrainState.drainingstate⟩ rfl (by decide)).2
     "mayastor" (mkPod "io-1" "node-1" (some [])) drainingEnv
     ⟨some "node-1"⟩ rfl rfl rfl rfl⟩

/-- A pod without a spec fails its processing immediately, before any
request is issued. -/
theorem process_pod_defective_spec (nspace : String) (pod : Pod) (env : PodEnv)
    (h : pod.spec = none) :
    process_pod nspace pod env =
      ([], some (Except.error (Error.EmptyPodSpec pod.name nspace))) := by
  simp [process_pod, h]

/-- A pod with a spec but no node assignment fails its processing
immediately, before any request is issued. -/
theorem process_pod_defective_node (nspace : String) (pod : Pod) (env : PodEnv)
    (s : PodSpec) (h : pod.spec = some s) (hn : s.node_name = none) :
    process_pod nspace pod env =
      ([], some (Except.error (Error.EmptyPodNodeName pod.name nspace))) := by
  simp [process_pod, h, hn]

/-- A run over an inventory containing a structurally defective
instance never terminates successfully. -/
theorem upgrade_loop_not_ok_of_defective (nspace : String) (envs : Nat → PodEnv) :
    ∀ (pods : List Pod) (i : Nat),
      (∃ p ∈ pods, p.spec = none ∨ ∃ s, p.spec = some s ∧ s.node_name = none) →
      (upgrade_loop nspace envs pods i).2 ≠ some (Except.ok ()) := by
  intro pods
  induction pods with
  | nil =>
    intro i hdef
    obtain ⟨p, hp, -⟩ := hdef
    exact absurd hp (List.not_mem_nil p)
  | cons q rest ih =>
    intro i hdef
    obtain ⟨p, hp, hd⟩ := hdef
    simp only [upgrade_loop]
    rcases List.mem_cons.mp hp with rfl | hmem
    · rcases hd with h0 | ⟨s, hs, hn⟩
      · rw [process_pod_defective_spec nspace p (envs i) h0]
        simp
      · rw [process_pod_defective_node nspace p (envs i) s hs hn]
        simp
    · rcases hres : process_pod nspace q (envs i) with ⟨acts, res⟩
      rcases res with - | res'
      · simp
      · rcases res' with e | u
        · simp
        · simpa using ih (i + 1) ⟨p, hmem, hd⟩

/-- C7 (amended): a structurally defective instance — missing spec or
missing node assignment — makes the orchestrator fail with the matching
invariant-violation error the moment it is reached, before any request
for that instance; when the defective instance is first in the
inventory no request at all is issued; and a run over an inventory
containing a defective instance never succeeds. -/
theorem c7_defective_inventory (nspace : String) (pod : Pod) (rest : List Pod)
    (envs : Nat → PodEnv) :
    (pod.spec = none →
       upgrade_data_plane nspace (Except.ok (pod :: rest)) envs =
         ([], some (Except.error (Error.EmptyPodSpec pod.name nspace)))) ∧
    (∀ s, pod.spec = some s → s.node_name = none →
       upgrade_data_plane nspace (Except.ok (pod :: rest)) envs =
         ([], some (Except.error (Error.EmptyPodNodeName pod.name nspace)))) ∧
    (∀ pods : List Pod,
       (∃ p ∈ pods, p.spec = none ∨ ∃ s, p.spec = some s ∧ s.node_name = none) →
       (upgrade_data_plane nspace (Except.ok pods) envs).2 ≠
         some (Except.ok ())) := by
  refine ⟨?_, ?_, ?_⟩
  · intro h
    simp only [upgrade_data_plane, upgrade_loop]
    rw [process_pod_defective_spec nspace pod (envs 0) h]
  · intro s hs hn
    simp only [upgrade_data_plane, upgrade_loop]
    rw [process_pod_defective_node nspace pod (envs 0) s hs hn]
  · intro pods hdef
    simp only [upgrade_data_plane]
    exact upgrade_loop_not_ok_of_defective nspace envs pods 0 hdef

/-- Fixture: a pod that has a spec but no node assignment. -/
def badPod : Pod := ⟨"io-2", "mayastor", some ⟨none⟩, none⟩

/-- C7 counterexample: with a healthy instance listed before the
defective one, the run fails with the node-assignment error yet a drain
request has already been issued — the orchestrator does not abort
before issuing any drain. -/
theorem c7_counterexample :
    upgrade_data_plane "mayastor"
        (Except.ok [mkPod "io-1" "node-1" (some []), badPod])
        (fun _ => successEnv) =
      ([Req.drain "node-1", Req.deletePod "io-1" "node-1", Req.uncordon "node-1"],
       some (Except.error (Error.EmptyPodNodeName "io-2" "mayastor"))) ∧
    Req.drain "node-1" ∈
      (upgrade_data_plane "mayastor"
        (Except.ok [mkPod "io-1" "node-1" (some []), badPod])
        (fun _ => successEnv)).1 := by
  refine ⟨rfl, ?_⟩
  rw [show (upgrade_data_plane "mayastor"
        (Except.ok [mkPod "io-1" "node-1" (some []), badPod])
        (fun _ => successEnv)).1 =
      [Req.drain "node-1", Req.deletePod "io-1" "node-1",
       Req.uncordon "node-1"] from rfl]
  simp

/-- C7 witness: the defective instance listed first makes the run fail
with the node-assignment error having issued no request. -/
theorem c7_witness :
    upgrade_data_plane "mayastor" (Except.ok [badPod]) (fun _ => successEnv) =
      ([], some (Except.error (Error.EmptyPodNodeName "io-2" "mayastor"))) :=
  (c7_defective_inventory "mayastor" badPod [] (fun _ => successEnv)).2.1
    ⟨none⟩ rfl rfl
